import Mathlib

/-!
Verification of the deterministic risk-scoring and chat core of
`src/backend/ai_service.py` (project-X phone-number triage service).

The Python module works over dynamically typed dictionaries, so the embedding
models Python values explicitly (`PyVal`), dictionaries as association lists
(`PyDict`), and the dynamic failures Python raises (`TypeError` on an
order-comparison with a non-number, `AttributeError` on `.lower()` of a
non-string, `StopIteration` on an exhausted generator fed to `next`) as an
`Except PyErr` result.  Pure fragments stay pure.

The optional local-LLM collaborator (`_llm_generate`) is I/O; following the
module's own contract (it returns `None` whenever the model is unavailable or
fails) it is modelled as an `Option String` parameter of the entry points that
consume it.  Real-clock fields (`analyzed_at`, `timestamp`) and the generated
prose fields are outside the embedded result records, which keep exactly the
deterministic fields the properties below speak about.
-/

namespace AIService

/-- A Python runtime value, restricted to the shapes the service's inputs use:
`None`, booleans, integers and strings. -/
inductive PyVal where
  | none
  | bool (b : Bool)
  | int (n : Int)
  | str (s : String)
deriving DecidableEq

/-- Python truthiness (`bool(v)`): `None` and `False` are falsy, numbers are
truthy iff non-zero, strings iff non-empty. -/
def PyVal.toBool : PyVal → Bool
  | .none => false
  | .bool b => b
  | .int n => n != 0
  | .str s => s != ""

/-- Python `str(v)` on the modelled value shapes. -/
def PyVal.pyStr : PyVal → String
  | .none => "None"
  | .bool true => "True"
  | .bool false => "False"
  | .int n => toString n
  | .str s => s

/-- Python `==` on the modelled value shapes (`True == 1` holds, values of
unrelated types compare unequal). -/
def pyEq : PyVal → PyVal → Bool
  | .none, .none => true
  | .bool a, .bool b => a == b
  | .int a, .int b => a == b
  | .bool a, .int b => (if a then (1 : Int) else 0) == b
  | .int a, .bool b => a == (if b then (1 : Int) else 0)
  | .str a, .str b => a == b
  | _, _ => false

/-- The dynamic errors the embedded fragments can raise. -/
inductive PyErr where
  | typeError
  | attributeError
  | stopIteration
deriving DecidableEq

/-- A Python dict with string keys, as an association list (keys unique in all
inputs the service builds; lookup takes the first binding). -/
abbrev PyDict := List (String × PyVal)

/-- Python `d.get(k)` returning `Option`. -/
def PyDict.get? (d : PyDict) (k : String) : Option PyVal :=
  (d.find? (fun p => p.1 == k)).map (·.2)

/-- Python `d.get(k, default)`. -/
def PyDict.getD (d : PyDict) (k : String) (v : PyVal) : PyVal :=
  (d.get? k).getD v

/-- Python `v >= t` against an integer threshold: defined for numbers (a
`bool` is an `int` subclass, `True` counting as 1), a `TypeError` otherwise. -/
def pyGE (v : PyVal) (t : Int) : Except PyErr Bool :=
  match v with
  | .int n => .ok (decide (n ≥ t))
  | .bool b => .ok (decide ((if b then (1 : Int) else 0) ≥ t))
  | _ => .error .typeError

/-- ASCII lower-casing, character by character (the behaviour of Python
`str.lower()` on the ASCII keys and labels the service compares against). -/
def strLower (s : String) : String :=
  ⟨s.data.map Char.toLower⟩

/-- Whitespace stripping at both ends (Python `str.strip()`). -/
def strStrip (s : String) : String :=
  ⟨((s.data.dropWhile Char.isWhitespace).reverse.dropWhile Char.isWhitespace).reverse⟩

/-- Python `v.lower()`: defined for strings, an `AttributeError` otherwise. -/
def PyVal.lower : PyVal → Except PyErr String
  | .str s => .ok (strLower s)
  | _ => .error .attributeError

/-- Python `a or b` (short-circuit on truthiness). -/
def pyOr (a b : PyVal) : PyVal :=
  if a.toBool then a else b

/-- Contiguous-sublist test on character lists, the meaning of Python's
`needle in haystack` on strings. -/
def charsContain (needle : List Char) : List Char → Bool
  | [] => needle.isEmpty
  | c :: t => needle.isPrefixOf (c :: t) || charsContain needle t

/-- Python `needle in haystack` for strings. -/
def pyIn (needle hay : String) : Bool :=
  charsContain needle.toList hay.toList

/-- Membership of a runtime value in a set of strings (Python `v in {...}`):
a non-string value is simply not a member. -/
def pyInStrSet (v : PyVal) (set : List String) : Bool :=
  match v with
  | .str s => set.contains s
  | _ => false

/-! ## Risk data tables (`ai_service.py` lines 108–208) -/

def HIGH_RISK_COUNTRIES : List String :=
  ["NG", "GH", "CI", "CM", "SN",
   "PK", "BD", "IN",
   "RU", "UA",
   "PH", "ID"]

def MEDIUM_RISK_COUNTRIES : List String :=
  ["CN", "BR", "MX", "CO", "VE",
   "EG", "DZ", "MA", "TN",
   "TR", "IR", "IQ",
   "RO", "BG", "AL"]

def SEVERE_KEYWORDS : List String :=
  ["bank", "account", "password", "ssn", "social security", "irs", "fbi",
   "arrest", "warrant", "court", "wire transfer", "bitcoin", "crypto",
   "gift card", "western union", "moneygram", "ransom", "blackmail",
   "threaten", "kidnap", "extort"]

def MODERATE_KEYWORDS : List String :=
  ["spam", "robot", "automated", "recording", "press 1", "free",
   "winner", "congratulations", "prize", "vacation", "offer",
   "insurance", "warranty", "extend", "solar", "energy",
   "debt", "loan", "credit", "rate", "lower"]

def REPORT_SEVERITY : List (String × Int) :=
  [("fraud", 30), ("scam", 28), ("phishing", 25),
   ("harassment", 20), ("robocall", 12), ("telemarketer", 10),
   ("spam", 8), ("other", 5)]

/-- Lookup `REPORT_SEVERITY.get(rtype, 5)`. -/
def REPORT_SEVERITY.getD5 (rtype : String) : Int :=
  ((REPORT_SEVERITY.find? (fun p => p.1 == rtype)).map (·.2)).getD 5

/-- Spam-report thresholds, checked in order, first match wins; the
`msg_template.format(count=spam_count)` step is embedded as the message
function applied to the count value. -/
def SPAM_THRESHOLDS : List (Int × Int × (PyVal → String)) :=
  [(10, 35, fun c => "Extremely high report volume (" ++ c.pyStr ++ " reports)"),
   (5,  25, fun c => "High number of community reports (" ++ c.pyStr ++ ")"),
   (2,  15, fun c => "Multiple community reports (" ++ c.pyStr ++ ")"),
   (1,   8, fun _ => "1 community report filed")]

def LINE_TYPE_SCORES : List (String × Int × String) :=
  [("voip",         (15, "VoIP number — commonly used for spoofing and scam calls")),
   ("premium rate", (12, "Premium rate number — may incur unexpected charges")),
   ("toll-free",    (5,  "Toll-free number — sometimes used by telemarketers"))]

def LINE_TYPE_LANDLINE : Int × String :=
  (-3, "Landline number — generally lower risk")

/-- Risk-level thresholds — checked top-down, first match wins. -/
def RISK_LEVELS : List (Int × String) :=
  [(70, "Critical"), (45, "High"), (25, "Medium"), (0, "Low")]

/-- Threat type detection — ordered list of (set of report types, label). -/
def THREAT_TYPE_MAP : List (List String × String) :=
  [(["fraud", "phishing"], "Fraud / Phishing"),
   (["scam"],              "Scam"),
   (["harassment"],        "Harassment"),
   (["robocall", "telemarketer"], "Telemarketing"),
   (["spam"],              "Spam")]

/-! ## Scoring helpers (`ai_service.py` lines 211–310) -/

/-- Loop body of `_score_spam_reports`: walk `SPAM_THRESHOLDS` and return on
the first threshold the count is `>=` (the comparison raises on a non-number
count). -/
def spamThresholdLoop (v : PyVal) :
    List (Int × Int × (PyVal → String)) → Except PyErr (Int × List String)
  | [] => .ok (0, [])
  | (threshold, points, msg) :: rest => do
    if (← pyGE v threshold) then
      .ok (points, [msg v])
    else
      spamThresholdLoop v rest

/-- Scorer `_score_spam_reports`: score based on community spam report volume. -/
def score_spam_reports (spam_count : PyVal) : Except PyErr (Int × List String) :=
  spamThresholdLoop spam_count SPAM_THRESHOLDS

/-- Python `report.get("type", "other").lower()`. -/
def report_type_lower (report : PyDict) : Except PyErr String :=
  (report.getD "type" (.str "other")).lower

/-- Python `report.get("description", "").lower()`. -/
def report_desc_lower (report : PyDict) : Except PyErr String :=
  (report.getD "description" (.str "")).lower

/-- Per-report keyword bonus and messages of `_score_report_contents`:
if any severe keyword occurs in the description, +5 and one message naming
the first severe keyword in list order; else if any moderate keyword occurs,
+2 and no message; else nothing. -/
def reportKeywordStep (desc : String) : Int × List String :=
  match SEVERE_KEYWORDS.find? (fun kw => pyIn kw desc) with
  | some matched => (5, ["Severe keyword detected: \x27" ++ matched ++ "\x27 in report"])
  | Option.none =>
    if MODERATE_KEYWORDS.any (fun kw => pyIn kw desc) then (2, []) else (0, [])

/-- The `for report in reports` loop of `_score_report_contents`, returning
(type-severity running total, keyword-bonus score, messages). -/
def reportContentsLoop : List PyDict → Except PyErr (Int × Int × List String)
  | [] => .ok (0, 0, [])
  | report :: rest => do
    let rtype ← report_type_lower report
    let sev := REPORT_SEVERITY.getD5 rtype
    let desc ← report_desc_lower report
    let (bonus, msgs) := reportKeywordStep desc
    let (sevRest, bonusRest, msgsRest) ← reportContentsLoop rest
    .ok (sev + sevRest, bonus + bonusRest, msgs ++ msgsRest)

/-- Scorer `_score_report_contents`: keyword bonuses plus the type-severity total
capped at 20 (the cap is added only when the total is positive, as in the
source). -/
def score_report_contents (reports : List PyDict) : Except PyErr (Int × List String) := do
  let (type_score_total, kwScore, factors) ← reportContentsLoop reports
  let score := kwScore + (if type_score_total > 0 then min type_score_total 20 else 0)
  .ok (score, factors)

/-- Scorer `_score_validity`: pure truthiness checks on `valid` / `possible`
(defaulting to true). -/
def score_validity (trace_data : PyDict) : Int × List String :=
  if !(trace_data.getD "valid" (.bool true)).toBool then
    (15, ["Number flagged as invalid/not active"])
  else if !(trace_data.getD "possible" (.bool true)).toBool then
    (10, ["Number format is not possible for this region"])
  else
    (0, [])

/-- Python `(trace_data.get("line_type") or "").lower()` — raises `AttributeError`
on a truthy non-string line type. -/
def line_type_lower (trace_data : PyDict) : Except PyErr String :=
  (pyOr (trace_data.getD "line_type" .none) (.str "")).lower

/-- Scorer `_score_line_type`. -/
def score_line_type (trace_data : PyDict) : Except PyErr (Int × List String) := do
  let line_type ← line_type_lower trace_data
  match LINE_TYPE_SCORES.find? (fun p => p.1 == line_type) with
  | some (_, points, msg) => .ok (points, [msg])
  | Option.none =>
    if pyIn "landline" line_type then
      .ok (LINE_TYPE_LANDLINE.1, [LINE_TYPE_LANDLINE.2])
    else
      .ok (0, [])

/-- Scorer `_score_country` (pure: set membership of a non-string country code is
simply false, and the message formats `str(country_name)`). -/
def score_country (trace_data : PyDict) : Int × List String :=
  let country_code := trace_data.getD "country_code" (.str "")
  let country_name := trace_data.getD "country_name" (pyOr country_code (.str "Unknown"))
  if pyInStrSet country_code HIGH_RISK_COUNTRIES then
    (15, ["Originates from high-risk telecom fraud region (" ++ country_name.pyStr ++ ")"])
  else if pyInStrSet country_code MEDIUM_RISK_COUNTRIES then
    (8, ["Originates from medium-risk region (" ++ country_name.pyStr ++ ")"])
  else
    (0, ["Country risk: normal (" ++ country_name.pyStr ++ ")"])

/-- Scorer `_score_carrier`. -/
def score_carrier (trace_data : PyDict) : Except PyErr (Int × List String) := do
  let carrier ← (pyOr (trace_data.getD "carrier" .none) (.str "")).lower
  if carrier == "" || carrier == "unknown" then
    .ok (10, ["Carrier is unknown — may indicate a virtual or disposable number"])
  else if ["virtual", "voip", "internet"].any (fun ind => pyIn ind carrier) then
    .ok (8, ["Virtual/internet-based carrier detected: " ++
             (trace_data.getD "carrier" .none).pyStr])
  else
    .ok (0, [])

/-- Scorer `_score_porting` (the `current.lower()` call is reached only after the
three truthiness/equality tests, as in the source's short-circuit `and`). -/
def score_porting (trace_data : PyDict) : Except PyErr (Int × List String) := do
  let original := trace_data.getD "original_carrier" (.str "")
  let current := trace_data.getD "carrier" (.str "")
  if original.toBool && current.toBool && !(pyEq original current) then
    let cl ← current.lower
    if cl != "unknown" then
      .ok (5, ["Number was ported from " ++ original.pyStr ++ " to " ++ current.pyStr])
    else
      .ok (0, [])
  else
    .ok (0, [])

/-! ## Core analysis functions (`ai_service.py` lines 313–341) -/

/-- Function `_determine_risk_level`: first entry of `RISK_LEVELS` whose threshold the
score reaches (`next` on an empty generator raises `StopIteration`). -/
def determine_risk_level (score : Int) : Except PyErr String :=
  match (RISK_LEVELS.find? (fun p => decide (score ≥ p.1))).map (·.2) with
  | some level => .ok level
  | Option.none => .error .stopIteration

/-- The set of lower-cased report types, `{r.get("type", "").lower() for r in reports}`
(as a list; only overlap with fixed sets is consumed downstream). -/
def report_types_lower (reports : List PyDict) : Except PyErr (List String) :=
  reports.mapM (fun r => (r.getD "type" (.str "")).lower)

/-- Function `_determine_threat_type`. -/
def determine_threat_type (trace_data : PyDict) (reports : List PyDict)
    (score : Int) : Except PyErr String := do
  let report_types ← report_types_lower reports
  match THREAT_TYPE_MAP.find? (fun p => p.1.any (fun t => report_types.contains t)) with
  | some (_, label) => .ok label
  | Option.none =>
    let line_type ← line_type_lower trace_data
    if line_type == "voip" && decide (score ≥ 30) then .ok "Suspicious VoIP"
    else if line_type == "premium rate" then .ok "Premium Rate"
    else if decide (score ≥ 45) then .ok "Suspicious"
    else if decide (score ≥ 25) then .ok "Potentially Unwanted"
    else .ok "Clean"

/-! ## Main analysis entry point (`ai_service.py` lines 376–451) -/

/-- The deterministic fields of the `analyze_number` result.  The prose
fields (`analysis`, `recommendation`), the provenance tag and the wall-clock
timestamp sit outside the embedded record: they depend on the optional
generative collaborator and the real clock, not on the scoring core. -/
structure AnalysisResult where
  risk_score : Int
  risk_level : String
  threat_type : String
  factors : List String
deriving DecidableEq

/-- The scorer loop of `analyze_number`: run the seven scorers in their fixed
invocation order, summing points and concatenating messages.  Returns the
pre-clamp score together with the full (untruncated) factor list. -/
def analysis_raw_score_factors (trace_data : PyDict) (reports : List PyDict) :
    Except PyErr (Int × List String) := do
  let (p1, f1) ← score_spam_reports (trace_data.getD "spam_reports" (.int 0))
  let (p2, f2) ← score_report_contents reports
  let (p3, f3) := score_validity trace_data
  let (p4, f4) ← score_line_type trace_data
  let (p5, f5) := score_country trace_data
  let (p6, f6) ← score_carrier trace_data
  let (p7, f7) ← score_porting trace_data
  .ok (p1 + p2 + p3 + p4 + p5 + p6 + p7,
       f1 ++ f2 ++ f3 ++ f4 ++ f5 ++ f6 ++ f7)

/-- Entry point `analyze_number` (deterministic core): scorers, clamp to [0,100], risk
level, threat type, and the factor list truncated to its first 6 entries. -/
def analyze_number (trace_data : PyDict) (reports : List PyDict) :
    Except PyErr AnalysisResult := do
  let (raw, factors) ← analysis_raw_score_factors trace_data reports
  let score := max 0 (min 100 raw)
  let risk_level ← determine_risk_level score
  let threat_type ← determine_threat_type trace_data reports score
  .ok { risk_score := score
        risk_level := risk_level
        threat_type := threat_type
        factors := factors.take 6 }


/-! ## AI safety chatbot (`ai_service.py` lines 457–702) -/

/-- One knowledge-base entry: trigger keyword patterns and a canned
response. -/
structure KBEntry where
  patterns : List String
  response : String
deriving DecidableEq

def KNOWLEDGE_BASE : List KBEntry :=
  [
   { patterns := ["scam", "how to identify", "recognize", "spot", "tell if"],
     response := "🔍 **How to Identify Scam Calls:**\n\n1. **Urgency tactics** — They pressure you to act immediately\n2. **Requesting payment** via gift cards, wire transfers, or crypto\n3. **Threatening arrest** or legal action if you don\x27t pay\n4. **Spoofed caller ID** — The number looks local but isn\x27t\n5. **Asking for SSN/bank details** — Legitimate organizations never do this by phone\n6. **\"You\x27ve won a prize\"** — If you didn\x27t enter, you didn\x27t win\n\n💡 **Tip:** If in doubt, hang up and call the organization directly using the number on their official website." },
   { patterns := ["voip", "virtual number", "internet number", "online number"],
     response := "📡 **About VoIP Numbers:**\n\nVoIP (Voice over Internet Protocol) numbers are phone numbers that work over the internet instead of traditional phone lines.\n\n**Legitimate uses:** Businesses, remote workers, international calls\n**Risk factor:** VoIP numbers are easy to obtain anonymously, making them popular with scammers for spoofing and robocalls.\n\n⚠️ A VoIP number isn\x27t automatically dangerous, but exercise more caution with unknown VoIP callers." },
   { patterns := ["block", "how to block", "stop calls", "prevent"],
     response := "🛡️ **How to Block Unwanted Calls:**\n\n**iPhone:**\n• Open Recent Calls → tap ⓘ next to the number → \"Block this Caller\"\n• Settings → Phone → Silence Unknown Callers\n\n**Android:**\n• Open Phone app → tap the number → \"Block/Report spam\"\n• Settings → Blocked Numbers → Add a number\n\n**Additional steps:**\n• Register on your country\x27s Do Not Call list\n• Use spam filtering apps (Truecaller, Hiya, etc.)\n• Report to PhoneTracer to help the community!" },
   { patterns := ["report", "how to report", "file complaint", "ftc", "fcc", "authority"],
     response := "📋 **How to Report Scam/Spam Numbers:**\n\n1. **PhoneTracer** — Use our Report page to warn the community\n2. **FTC** (US) — reportfraud.ftc.gov\n3. **FCC** (US) — fcc.gov/consumers/guides/stop-unwanted-calls\n4. **ICO** (UK) — ico.org.uk/make-a-complaint\n5. **TRAI** (India) — Report via DND app\n6. **Your carrier** — Most carriers have spam reporting via text (e.g., forward to 7726/SPAM)\n\n💡 The more reports filed, the faster these numbers get blocked globally." },
   { patterns := ["safe", "is it safe", "should i answer", "unknown number", "missed call"],
     response := "📱 **Should You Answer Unknown Numbers?**\n\n**General rule:** If you don\x27t recognize the number, let it go to voicemail.\n\n**Red flags for callbacks:**\n• International numbers you don\x27t expect\n• Premium rate numbers (starting with 900, 0900, etc.)\n• Missed calls that ring only once (\"Wangiri\" scam)\n\n**Safe to answer if:**\n• You\x27re expecting a delivery or appointment call\n• The number matches a local area code you recognize\n• You can verify the number on PhoneTracer first! 🔍" },
   { patterns := ["phishing", "sms phishing", "smishing", "text scam", "fake text"],
     response := "🎣 **Phishing & SMS Scams (Smishing):**\n\n**What is it?** Fraudulent texts pretending to be from banks, delivery services, or government agencies.\n\n**Common examples:**\n• \"Your package is held — click here to reschedule\"\n• \"Unusual activity on your account — verify now\"\n• \"You owe taxes — pay immediately to avoid arrest\"\n\n**How to protect yourself:**\n• Never click links in unexpected text messages\n• Don\x27t reply with personal information\n• Go directly to the official website/app instead\n• Forward suspicious texts to 7726 (SPAM)" },
   { patterns := ["robocall", "automated", "robot", "recording", "press 1"],
     response := "🤖 **About Robocalls:**\n\nRobocalls are automated pre-recorded phone calls. While some are legitimate (appointment reminders, flight alerts), most unsolicited robocalls are illegal.\n\n**Illegal robocall signs:**\n• Selling something without your written permission\n• Using fake caller ID (spoofing)\n• No opt-out option provided\n\n**Protection tips:**\n• Don\x27t press any buttons — it confirms your number is active\n• Register on the Do Not Call list\n• Use call-blocking apps\n• Block and report on PhoneTracer" },
   { patterns := ["caller id", "spoofing", "fake number", "disguise", "pretend"],
     response := "🎭 **Caller ID Spoofing:**\n\nSpoofing is when callers deliberately falsify the phone number displayed on your caller ID to disguise their identity.\n\n**How it works:**\n• Scammers use VoIP services to set any number as their outgoing caller ID\n• They often use numbers similar to yours (\"neighbor spoofing\")\n• Even government agency numbers can be spoofed\n\n**Protection:**\n• Never trust caller ID alone\n• If a \"bank\" calls, hang up and call the number on your card\n• Use PhoneTracer to check the real origin" },
   { patterns := ["privacy", "data", "personal information", "protect", "security"],
     response := "🔒 **Phone Privacy & Data Protection:**\n\n**Never share over the phone:**\n• Social Security / National ID numbers\n• Bank account or credit card details\n• Passwords or OTP codes\n• Home address to unknown callers\n\n**Best practices:**\n• Use different passwords for each account\n• Enable two-factor authentication everywhere\n• Review app permissions regularly\n• Be cautious with public Wi-Fi for calls/texts\n• Use PhoneTracer to verify unknown numbers before calling back" },
   { patterns := ["wangiri", "one ring", "callback scam", "international missed call"],
     response := "☎️ **Wangiri (One Ring) Scam:**\n\n**How it works:**\n• You receive a missed call from an international number\n• The phone rings only once or twice to create a missed call\n• If you call back, you\x27re connected to a premium-rate number\n• You get charged high per-minute fees\n\n**Protection:**\n• Never call back unknown international numbers\n• Look up the number on PhoneTracer first\n• Block the number immediately\n• Numbers from small island nations are common sources" },
   { patterns := ["hello", "hi", "hey", "help", "what can you do", "start"],
     response := "👋 **Hello! I\x27m your Phone Safety AI Assistant.**\n\nI can help you with:\n\n• 🔍 How to identify scam and spam calls\n• 🛡️ How to block unwanted numbers\n• 📋 How and where to report fraud\n• 📡 Understanding VoIP and virtual numbers\n• 🎭 Caller ID spoofing explained\n• 🔒 Phone privacy and data protection tips\n• 🤖 Handling robocalls\n• 🎣 Phishing and SMS scam awareness\n\nJust ask me anything about phone safety! 💬" }]

def DEFAULT_RESPONSE : String :=
  "🤔 I\x27m not sure about that specific topic, but here are some things I can help with:\n\n• **\"How to identify scam calls\"** — Learn the warning signs\n• **\"How to block numbers\"** — Step-by-step for iPhone & Android\n• **\"What is VoIP\"** — Understanding virtual numbers\n• **\"How to report spam\"** — Where to file complaints\n• **\"Caller ID spoofing\"** — How scammers fake numbers\n• **\"Phone privacy tips\"** — Protect your data\n\nTry asking about any of these topics! 💡"

def MODEL_FILE : String := "qwen2.5-0.5b-instruct-q4_k_m.gguf"

/-- The score `_match_knowledge_base` gives one entry against an (already
lower-cased) message: `sum(len(p) for p in entry["patterns"] if p in msg_lower)`. -/
def kb_entry_score (msg_lower : String) (entry : KBEntry) : Int :=
  (entry.patterns.filter (fun p => pyIn p msg_lower)).foldl
    (fun acc p => acc + (p.length : Int)) 0

/-- The accumulator step of `_match_knowledge_base`: replace the running best
only on a strictly higher score. -/
def kbStep (msg_lower : String) (best : Int × String) (entry : KBEntry) : Int × String :=
  if kb_entry_score msg_lower entry > best.1 then
    (kb_entry_score msg_lower entry, entry.response)
  else best

/-- Function `_match_knowledge_base`: best-scoring entry (first on ties, default
response when nothing scores above 0), confidence `min(best_score / 10, 1.0)`
(Python float division embedded as exact rational division). -/
def match_knowledge_base (msg_lower : String) : String × ℚ :=
  let best := KNOWLEDGE_BASE.foldl (kbStep msg_lower) (0, DEFAULT_RESPONSE)
  (best.2, min ((best.1 : ℚ) / 10) 1)

/-- The deterministic fields of the `chat` result (the wall-clock `timestamp`
field sits outside the embedding). -/
structure ChatResult where
  response : String
  confidence : ℚ
  ai_source : String
  model : Option String
deriving DecidableEq

/-- Entry point `chat` (deterministic core).  The external generator\x27s reply, which the
source obtains from `_llm_generate` (already `.strip()`ed, `None` when the
model is unavailable or fails), is the `llm_response` parameter; the source
never reads `history` in the body. -/
def chat (llm_response : Option String) (message : String)
    (history : Option (List PyDict)) : ChatResult :=
  let msg_lower := strStrip (strLower message)
  match llm_response with
  | some s =>
    if s != "" && s.length > 20 then
      { response := s
        confidence := 9 / 10
        ai_source := "llm"
        model := some MODEL_FILE }
    else
      let (response, confidence) := match_knowledge_base msg_lower
      { response := response, confidence := confidence
        ai_source := "rule-based", model := Option.none }
  | Option.none =>
    let (response, confidence) := match_knowledge_base msg_lower
    { response := response, confidence := confidence
      ai_source := "rule-based", model := Option.none }

/-! ## Spec-side reference definitions and theorems -/

instance {ε α : Type} [DecidableEq ε] [DecidableEq α] : DecidableEq (Except ε α)
  | .error e, .error f =>
    if h : e = f then .isTrue (by rw [h]) else .isFalse (fun hh => h (Except.error.inj hh))
  | .error _, .ok _ => .isFalse Except.noConfusion
  | .ok _, .error _ => .isFalse Except.noConfusion
  | .ok a, .ok b =>
    if h : a = b then .isTrue (by rw [h]) else .isFalse (fun hh => h (Except.ok.inj hh))

@[simp]
theorem except_ok_bind {ε α β : Type} (a : α) (f : α → Except ε β) :
    (Except.ok a : Except ε α) >>= f = f a := rfl

@[simp]
theorem except_error_bind {ε α β : Type} (e : ε) (f : α → Except ε β) :
    (Except.error e : Except ε α) >>= f = .error e := rfl

@[simp]
theorem except_pure_eq_ok {ε α : Type} (a : α) :
    (pure a : Except ε α) = .ok a := rfl

/-- Reference point table for the spam-volume scorer, following the spec
ladder `c>=10 -> 35, c>=5 -> 25, c>=2 -> 15, c>=1 -> 8, else 0`. -/
def spec_spam_points (c : Int) : Int :=
  if c ≥ 10 then 35 else if c ≥ 5 then 25 else if c ≥ 2 then 15
  else if c ≥ 1 then 8 else 0

/-- On every non-negative score `_determine_risk_level` succeeds and equals
the threshold ladder (>=70 Critical, >=45 High, >=25 Medium, else Low). -/
theorem determine_risk_level_eq (s : Int) (h0 : 0 ≤ s) :
    determine_risk_level s = .ok
      (if s ≥ 70 then "Critical" else if s ≥ 45 then "High"
       else if s ≥ 25 then "Medium" else "Low") := by
  by_cases h70 : s ≥ 70
  · simp [determine_risk_level, RISK_LEVELS, List.find?, h70]
  · by_cases h45 : s ≥ 45
    · simp [determine_risk_level, RISK_LEVELS, List.find?, h70, h45]
    · by_cases h25 : s ≥ 25
      · simp [determine_risk_level, RISK_LEVELS, List.find?, h70, h45, h25]
      · simp [determine_risk_level, RISK_LEVELS, List.find?, h70, h45, h25, h0]

/-- C2: for every score in [0,100] the risk level is the total deterministic
ladder (>=70 Critical, >=45 High, >=25 Medium, else Low), with the exact
boundary values 69 -> High, 70 -> Critical, 44 -> Medium, 45 -> High,
24 -> Low, 25 -> Medium. -/
theorem risk_level_total_ladder :
    (∀ s : Int, 0 ≤ s → s ≤ 100 →
      determine_risk_level s = .ok
        (if s ≥ 70 then "Critical" else if s ≥ 45 then "High"
         else if s ≥ 25 then "Medium" else "Low"))
    ∧ determine_risk_level 69 = .ok "High"
    ∧ determine_risk_level 70 = .ok "Critical"
    ∧ determine_risk_level 44 = .ok "Medium"
    ∧ determine_risk_level 45 = .ok "High"
    ∧ determine_risk_level 24 = .ok "Low"
    ∧ determine_risk_level 25 = .ok "Medium" :=
  ⟨fun s h0 _ => determine_risk_level_eq s h0,
   by decide, by decide, by decide, by decide, by decide, by decide⟩

/-- Witness for `risk_level_total_ladder` at the concrete score 50. -/
theorem risk_level_total_ladder_witness :
    determine_risk_level 50 = .ok
      (if (50 : Int) ≥ 70 then "Critical" else if (50 : Int) ≥ 45 then "High"
       else if (50 : Int) ≥ 25 then "Medium" else "Low") :=
  risk_level_total_ladder.1 50 (by norm_num) (by norm_num)

/-- C4: the spam-volume scorer returns exactly the threshold-table points
(+35 for c >= 10, +25 for 5 <= c < 10, +15 for 2 <= c < 5, +8 for c = 1,
0 for c = 0), with a message containing the literal count except the +8
tier (fixed message) and the 0 tier (no message); the points are monotone
in the count. -/
theorem spam_scorer_table :
    (∀ c : Int,
      score_spam_reports (.int c) = .ok
        (spec_spam_points c,
         if c ≥ 10 then ["Extremely high report volume (" ++ toString c ++ " reports)"]
         else if c ≥ 5 then ["High number of community reports (" ++ toString c ++ ")"]
         else if c ≥ 2 then ["Multiple community reports (" ++ toString c ++ ")"]
         else if c ≥ 1 then ["1 community report filed"]
         else []))
    ∧ (∀ c d : Int, c ≤ d → spec_spam_points c ≤ spec_spam_points d) := by
  constructor
  · intro c
    by_cases h10 : c ≥ 10
    · simp [score_spam_reports, SPAM_THRESHOLDS, spamThresholdLoop, pyGE,
            spec_spam_points, PyVal.pyStr, h10]
    · by_cases h5 : c ≥ 5
      · simp [score_spam_reports, SPAM_THRESHOLDS, spamThresholdLoop, pyGE,
              spec_spam_points, PyVal.pyStr, h10, h5]
      · by_cases h2 : c ≥ 2
        · simp [score_spam_reports, SPAM_THRESHOLDS, spamThresholdLoop, pyGE,
                spec_spam_points, PyVal.pyStr, h10, h5, h2]
        · by_cases h1 : c ≥ 1
          · simp [score_spam_reports, SPAM_THRESHOLDS, spamThresholdLoop, pyGE,
                  spec_spam_points, PyVal.pyStr, h10, h5, h2, h1]
          · simp [score_spam_reports, SPAM_THRESHOLDS, spamThresholdLoop, pyGE,
                  spec_spam_points, PyVal.pyStr, h10, h5, h2, h1]
  · intro c d hcd
    unfold spec_spam_points
    split_ifs <;> omega

/-- Witness for `spam_scorer_table` at the concrete count 7. -/
theorem spam_scorer_table_witness :
    score_spam_reports (.int 7) = .ok
      (spec_spam_points 7,
       if (7 : Int) ≥ 10 then ["Extremely high report volume (" ++ toString (7 : Int) ++ " reports)"]
       else if (7 : Int) ≥ 5 then ["High number of community reports (" ++ toString (7 : Int) ++ ")"]
       else if (7 : Int) ≥ 2 then ["Multiple community reports (" ++ toString (7 : Int) ++ ")"]
       else if (7 : Int) ≥ 1 then ["1 community report filed"]
       else []) :=
  spam_scorer_table.1 7

/-- A trace whose only non-zero factor is the landline discount: valid,
possible, known carrier, normal-risk country, zero spam reports. -/
def landlineTrace : PyDict :=
  [("formatted_international", .str "+1 415-858-6273"),
   ("valid", .bool true), ("possible", .bool true),
   ("country_code", .str "US"), ("country_name", .str "United States"),
   ("carrier", .str "AT&T"), ("original_carrier", .str "AT&T"),
   ("line_type", .str "Landline"), ("spam_reports", .int 0)]

/-- The result `analyze_number` produces on `landlineTrace` with no reports. -/
def landlineResult : AnalysisResult :=
  { risk_score := 0
    risk_level := "Low"
    threat_type := "Clean"
    factors := ["Landline number — generally lower risk",
                "Country risk: normal (United States)"] }

/-- An adversarial trace (spec scenario C): 20 spam reports, invalid, VoIP,
high-risk country, unknown carrier. -/
def overloadTrace : PyDict :=
  [("spam_reports", .int 20), ("valid", .bool false),
   ("line_type", .str "VoIP"), ("country_code", .str "NG"),
   ("country_name", .str "Nigeria"), ("carrier", .str "Unknown")]

/-- Ten fraud reports whose descriptions contain several severe keywords. -/
def overloadReports : List PyDict :=
  List.replicate 10
    [("type", .str "fraud"),
     ("description", .str "bank password ssn bitcoin ransom")]

/-- The result `analyze_number` produces on `overloadTrace` / `overloadReports`. -/
def overloadResult : AnalysisResult :=
  { risk_score := 100
    risk_level := "Critical"
    threat_type := "Fraud / Phishing"
    factors := "Extremely high report volume (20 reports)" ::
      List.replicate 5 "Severe keyword detected: \x27bank\x27 in report" }

/-- Decomposition of a successful `analyze_number` run: the result's score is
the clamp of the raw factor sum, and its factor list is the first six of the
full message list. -/
theorem analyze_number_ok_decomp {td : PyDict} {rs : List PyDict} {r : AnalysisResult}
    (h : analyze_number td rs = .ok r) :
    ∃ raw f, analysis_raw_score_factors td rs = .ok (raw, f) ∧
      r.risk_score = max 0 (min 100 raw) ∧ r.factors = f.take 6 := by
  unfold analyze_number at h
  cases harf : analysis_raw_score_factors td rs with
  | error e => rw [harf] at h; simp at h
  | ok p =>
    obtain ⟨raw, f⟩ := p
    rw [harf] at h
    simp only [except_ok_bind] at h
    cases hrl : determine_risk_level (max 0 (min 100 raw)) with
    | error e => rw [hrl] at h; simp at h
    | ok rl =>
      rw [hrl] at h
      simp only [except_ok_bind] at h
      cases htt : determine_threat_type td rs (max 0 (min 100 raw)) with
      | error e => rw [htt] at h; simp at h
      | ok tt =>
        rw [htt] at h
        simp only [except_ok_bind] at h
        cases h
        exact ⟨raw, f, rfl, rfl, rfl⟩

/-- C1: every successful `analyze_number` result has `risk_score` in [0,100];
a pre-clamp sum above 100 clamps to exactly 100 and a negative pre-clamp sum
to exactly 0; the landline trace has a negative pre-clamp sum (-3) yet a
final score of exactly 0, and the adversarial scenario has a pre-clamp sum of
160 and a final score of exactly 100. -/
theorem risk_score_clamped :
    (∀ td rs r, analyze_number td rs = .ok r →
      0 ≤ r.risk_score ∧ r.risk_score ≤ 100)
    ∧ (∀ td rs raw f r, analysis_raw_score_factors td rs = .ok (raw, f) →
        analyze_number td rs = .ok r → 100 < raw → r.risk_score = 100)
    ∧ (∀ td rs raw f r, analysis_raw_score_factors td rs = .ok (raw, f) →
        analyze_number td rs = .ok r → raw < 0 → r.risk_score = 0)
    ∧ analysis_raw_score_factors landlineTrace [] =
        .ok (-3, ["Landline number — generally lower risk",
                  "Country risk: normal (United States)"])
    ∧ analyze_number landlineTrace [] = .ok landlineResult
    ∧ (analysis_raw_score_factors overloadTrace overloadReports).map Prod.fst = .ok 160
    ∧ analyze_number overloadTrace overloadReports = .ok overloadResult := by
  refine ⟨?_, ?_, ?_, by decide, by decide, by decide, by decide⟩
  · intro td rs r h
    obtain ⟨raw, f, _, hscore, _⟩ := analyze_number_ok_decomp h
    rw [hscore]
    omega
  · intro td rs raw f r harf h hgt
    obtain ⟨raw2, f2, harf2, hscore, _⟩ := analyze_number_ok_decomp h
    rw [harf] at harf2
    obtain ⟨rfl, rfl⟩ := Prod.mk.injEq .. ▸ Except.ok.inj harf2
    rw [hscore]
    omega
  · intro td rs raw f r harf h hlt
    obtain ⟨raw2, f2, harf2, hscore, _⟩ := analyze_number_ok_decomp h
    rw [harf] at harf2
    obtain ⟨rfl, rfl⟩ := Prod.mk.injEq .. ▸ Except.ok.inj harf2
    rw [hscore]
    omega

/-- Witness for `risk_score_clamped` at the concrete landline input. -/
theorem risk_score_clamped_witness :
    0 ≤ landlineResult.risk_score ∧ landlineResult.risk_score ≤ 100 :=
  risk_score_clamped.1 landlineTrace [] landlineResult (by decide)

/-- C7: every successful `analyze_number` result carries at most 6 factor
messages, and they are exactly the first 6 of the full internally generated
message list in scorer-invocation order (on the adversarial scenario 15
messages are generated internally and 6 survive). -/
theorem factors_truncated_to_six :
    (∀ td rs r, analyze_number td rs = .ok r →
      r.factors.length ≤ 6 ∧
      ∃ raw full, analysis_raw_score_factors td rs = .ok (raw, full) ∧
        r.factors = full.take 6)
    ∧ (analysis_raw_score_factors overloadTrace overloadReports).map
        (fun p => p.2.length) = .ok 15
    ∧ (analyze_number overloadTrace overloadReports).map
        (fun r => r.factors.length) = .ok 6 := by
  refine ⟨?_, by decide, by decide⟩
  intro td rs r h
  obtain ⟨raw, f, harf, _, hfact⟩ := analyze_number_ok_decomp h
  refine ⟨?_, raw, f, harf, hfact⟩
  rw [hfact]
  simp [List.length_take]

/-- Witness for `factors_truncated_to_six` at the adversarial input. -/
theorem factors_truncated_to_six_witness :
    overloadResult.factors.length ≤ 6 ∧
    ∃ raw full,
      analysis_raw_score_factors overloadTrace overloadReports = .ok (raw, full) ∧
      overloadResult.factors = full.take 6 :=
  factors_truncated_to_six.1 overloadTrace overloadReports overloadResult (by decide)

/-- Reference threat-type classifier, following the spec rules word for word:
ordered report-type rules first (first overlap wins), then the trace-based
fallback ladder. -/
def spec_threat_type (report_types : List String) (line_type : String)
    (score : Int) : String :=
  if report_types.contains "fraud" || report_types.contains "phishing" then "Fraud / Phishing"
  else if report_types.contains "scam" then "Scam"
  else if report_types.contains "harassment" then "Harassment"
  else if report_types.contains "robocall" || report_types.contains "telemarketer" then "Telemarketing"
  else if report_types.contains "spam" then "Spam"
  else if line_type == "voip" && decide (score ≥ 30) then "Suspicious VoIP"
  else if line_type == "premium rate" then "Premium Rate"
  else if decide (score ≥ 45) then "Suspicious"
  else if decide (score ≥ 25) then "Potentially Unwanted"
  else "Clean"

/-- C3: whenever the lower-cased report types and line type are extracted
without error, `_determine_threat_type` returns exactly the spec's ordered
first-overlap-wins classification with its fallback ladder; in particular a
report set containing both "fraud" and "scam" resolves to "Fraud / Phishing". -/
theorem threat_type_first_overlap_wins :
    (∀ td rs score types lt,
      report_types_lower rs = .ok types →
      line_type_lower td = .ok lt →
      determine_threat_type td rs score = .ok (spec_threat_type types lt score))
    ∧ determine_threat_type []
        [[("type", .str "fraud")], [("type", .str "scam")]] 0 = .ok "Fraud / Phishing" := by
  refine ⟨?_, by decide⟩
  intro td rs score types lt htypes hlt
  unfold determine_threat_type spec_threat_type THREAT_TYPE_MAP
  rw [htypes]
  simp only [except_ok_bind]
  by_cases hf : "fraud" ∈ types
  · simp [List.find?, hf]
  by_cases hp : "phishing" ∈ types
  · simp [List.find?, hf, hp]
  by_cases hs : "scam" ∈ types
  · simp [List.find?, hf, hp, hs]
  by_cases hh : "harassment" ∈ types
  · simp [List.find?, hf, hp, hs, hh]
  by_cases hr : "robocall" ∈ types
  · simp [List.find?, hf, hp, hs, hh, hr]
  by_cases ht : "telemarketer" ∈ types
  · simp [List.find?, hf, hp, hs, hh, hr, ht]
  by_cases hsp : "spam" ∈ types
  · simp [List.find?, hf, hp, hs, hh, hr, ht, hsp]
  simp only [List.find?, List.any_cons, List.any_nil, List.contains, List.elem_eq_mem,
    hf, hp, hs, hh, hr, ht, hsp, decide_False, Bool.or_false, Bool.or_self]
  rw [hlt]
  simp only [except_ok_bind]
  simp only [apply_ite (Except.ok : String → Except PyErr String)]
  split_ifs <;> simp_all

/-- Witness for `threat_type_first_overlap_wins` at a concrete fraud+scam
report pair. -/
theorem threat_type_first_overlap_wins_witness :
    determine_threat_type [] [[("type", .str "fraud")], [("type", .str "scam")]] 50 =
      .ok (spec_threat_type ["fraud", "scam"] "" 50) :=
  threat_type_first_overlap_wins.1 []
    [[("type", .str "fraud")], [("type", .str "scam")]] 50 ["fraud", "scam"] ""
    (by decide) (by decide)

/-- Spec-side decoding of one report: its lower-cased type (default "other")
and lower-cased description (default ""). -/
def spec_report_decode (r : PyDict) : Except PyErr (String × String) := do
  let t ← report_type_lower r
  let d ← report_desc_lower r
  .ok (t, d)

/-- Spec-side per-type severity total: sum over all reports of
`REPORT_SEVERITY[type]`, default 5 for an unrecognized type. -/
def spec_type_total (tds : List (String × String)) : Int :=
  (tds.map (fun p => REPORT_SEVERITY.getD5 p.1)).sum

/-- First severe keyword (in fixed list order) occurring in a description. -/
def spec_severe_match (d : String) : Option String :=
  SEVERE_KEYWORDS.find? (fun kw => pyIn kw d)

/-- Spec-side per-report keyword bonus: +5 if a severe keyword occurs
(severe takes priority), else +2 if a moderate keyword occurs, else 0. -/
def spec_kw_bonus (d : String) : Int :=
  match spec_severe_match d with
  | some _ => 5
  | Option.none => if MODERATE_KEYWORDS.any (fun kw => pyIn kw d) then 2 else 0

/-- Spec-side per-report messages: one message naming the first severe
keyword when one occurs, no message otherwise. -/
def spec_kw_messages (d : String) : List String :=
  match spec_severe_match d with
  | some kw => ["Severe keyword detected: \x27" ++ kw ++ "\x27 in report"]
  | Option.none => []

theorem reportKeywordStep_eq (d : String) :
    reportKeywordStep d = (spec_kw_bonus d, spec_kw_messages d) := by
  unfold reportKeywordStep spec_kw_bonus spec_kw_messages spec_severe_match
  cases SEVERE_KEYWORDS.find? (fun kw => pyIn kw d) with
  | none => split_ifs <;> rfl
  | some kw => rfl

theorem REPORT_SEVERITY_getD5_nonneg (t : String) : 0 ≤ REPORT_SEVERITY.getD5 t := by
  unfold REPORT_SEVERITY.getD5
  cases hf : REPORT_SEVERITY.find? (fun p => p.1 == t) with
  | none => simp
  | some p =>
    have hmem := List.mem_of_find?_eq_some hf
    have hall : ∀ q ∈ REPORT_SEVERITY, (0 : Int) ≤ q.2 := by decide
    simpa using hall p hmem

theorem spec_type_total_nonneg (tds : List (String × String)) :
    0 ≤ spec_type_total tds := by
  unfold spec_type_total
  induction tds with
  | nil => simp
  | cons p rest ih =>
    simp only [List.map_cons, List.sum_cons]
    have := REPORT_SEVERITY_getD5_nonneg p.1
    omega

theorem reportContentsLoop_formula :
    ∀ (reports : List PyDict) (tds : List (String × String)),
      reports.mapM spec_report_decode = .ok tds →
      reportContentsLoop reports = .ok
        (spec_type_total tds,
         (tds.map (fun p => spec_kw_bonus p.2)).sum,
         (tds.map (fun p => spec_kw_messages p.2)).flatten) := by
  intro reports
  induction reports with
  | nil =>
    intro tds h
    simp only [List.mapM_nil, except_pure_eq_ok] at h
    cases h
    simp [reportContentsLoop, spec_type_total]
  | cons r rest ih =>
    intro tds h
    rw [List.mapM_cons] at h
    cases hdec : spec_report_decode r with
    | error e => rw [hdec] at h; simp at h
    | ok td =>
      rw [hdec] at h
      simp only [except_ok_bind] at h
      cases hrest : rest.mapM spec_report_decode with
      | error e => rw [hrest] at h; simp at h
      | ok tds' =>
        rw [hrest] at h
        simp only [except_ok_bind, except_pure_eq_ok] at h
        cases h
        obtain ⟨t, d⟩ := td
        unfold spec_report_decode at hdec
        cases hty : report_type_lower r with
        | error e => rw [hty] at hdec; simp at hdec
        | ok ty =>
          rw [hty] at hdec
          simp only [except_ok_bind] at hdec
          cases hde : report_desc_lower r with
          | error e => rw [hde] at hdec; simp at hdec
          | ok de =>
            rw [hde] at hdec
            simp only [except_ok_bind] at hdec
            cases hdec
            unfold reportContentsLoop
            rw [hty]
            simp only [except_ok_bind]
            rw [hde]
            simp only [except_ok_bind]
            rw [reportKeywordStep_eq, ih tds' hrest]
            simp [spec_type_total]

/-- C5: on every报 report list whose fields decode, the report-content scorer
returns the per-type severity total (default 5) capped at 20 overall, plus the
per-report keyword bonuses (+5 with one message naming the first severe
keyword in list order, else +2 with no message for a moderate keyword), and
exactly the severe-keyword messages in report order. -/
theorem report_contents_cap_and_keywords :
    ∀ (reports : List PyDict) (tds : List (String × String)),
      reports.mapM spec_report_decode = .ok tds →
      score_report_contents reports = .ok
        (min (spec_type_total tds) 20 + (tds.map (fun p => spec_kw_bonus p.2)).sum,
         (tds.map (fun p => spec_kw_messages p.2)).flatten) := by
  intro reports tds h
  unfold score_report_contents
  rw [reportContentsLoop_formula reports tds h]
  simp only [except_ok_bind]
  have htot : 0 ≤ spec_type_total tds := spec_type_total_nonneg tds
  have hcap : (if spec_type_total tds > 0 then min (spec_type_total tds) 20 else 0) =
      min (spec_type_total tds) 20 := by
    split_ifs <;> omega
  rw [hcap]
  ring_nf

/-- Witness for `report_contents_cap_and_keywords` at a concrete pair of
reports (one severe fraud report, one moderate spam report). -/
theorem report_contents_cap_and_keywords_witness :
    score_report_contents
      [[("type", .str "fraud"), ("description", .str "Tried to get my BANK details")],
       [("type", .str "spam"), ("description", .str "Automated recording")]] =
      .ok
        (min (spec_type_total [("fraud", "tried to get my bank details"), ("spam", "automated recording")]) 20 +
          ((([("fraud", "tried to get my bank details"), ("spam", "automated recording")] : List (String × String)).map
             (fun p => spec_kw_bonus p.2)).sum),
         (([("fraud", "tried to get my bank details"), ("spam", "automated recording")] : List (String × String)).map
            (fun p => spec_kw_messages p.2)).flatten) :=
  report_contents_cap_and_keywords
    [[("type", .str "fraud"), ("description", .str "Tried to get my BANK details")],
     [("type", .str "spam"), ("description", .str "Automated recording")]]
    [("fraud", "tried to get my bank details"), ("spam", "automated recording")]
    (by decide)

/-! ## Well-typedness of dynamic inputs -/

/-- A value Python treats as a number for `>=` (int, or bool as int
subclass). -/
def isNumeric : PyVal → Bool
  | .int _ => true
  | .bool _ => true
  | _ => false

/-- A string value. -/
def isStr : PyVal → Bool
  | .str _ => true
  | _ => false

/-- A value that is a string whenever it is truthy (so `(v or "").lower()`
cannot raise). -/
def strWhenTruthy : PyVal → Bool
  | .str _ => true
  | v => !v.toBool

/-- A field that, when present, holds a string. -/
def fieldStrOK (r : PyDict) (k : String) : Bool :=
  match r.get? k with
  | Option.none => true
  | some v => isStr v

/-- Well-typed-or-absent optional fields of a trace record: `spam_reports`
numeric when present, `line_type` and `carrier` strings when truthy. -/
def TraceWF (td : PyDict) : Bool :=
  isNumeric (td.getD "spam_reports" (.int 0)) &&
  strWhenTruthy (td.getD "line_type" .none) &&
  strWhenTruthy (td.getD "carrier" .none)

/-- A report-like record: `type` and `description` strings when present. -/
def ReportWF (r : PyDict) : Bool :=
  fieldStrOK r "type" && fieldStrOK r "description"

theorem bool_and_elim {a b : Bool} (h : (a && b) = true) : a = true ∧ b = true := by
  cases a <;> cases b <;> simp_all

theorem pyGE_ok_of_numeric {v : PyVal} (h : isNumeric v = true) (t : Int) :
    ∃ b, pyGE v t = .ok b := by
  cases v with
  | int n => exact ⟨_, rfl⟩
  | bool b => exact ⟨_, rfl⟩
  | none => simp [isNumeric] at h
  | str s2 => simp [isNumeric] at h

theorem spamThresholdLoop_ok {v : PyVal} (h : isNumeric v = true) :
    ∀ l, ∃ out, spamThresholdLoop v l = .ok out := by
  intro l
  induction l with
  | nil => exact ⟨_, rfl⟩
  | cons e rest ih =>
    obtain ⟨t, p, m⟩ := e
    obtain ⟨b, hb⟩ := pyGE_ok_of_numeric h t
    obtain ⟨out, hout⟩ := ih
    cases b with
    | false =>
      refine ⟨out, ?_⟩
      unfold spamThresholdLoop
      rw [hb]
      simpa using hout
    | true =>
      refine ⟨(p, [m v]), ?_⟩
      unfold spamThresholdLoop
      rw [hb]
      simp

theorem lower_pyOr_ok {v : PyVal} (h : strWhenTruthy v = true) :
    ∃ s, (pyOr v (.str "")).lower = .ok s := by
  unfold pyOr
  cases v with
  | str s2 => split <;> exact ⟨_, rfl⟩
  | none => exact ⟨_, rfl⟩
  | bool b =>
    cases b with
    | false => exact ⟨_, rfl⟩
    | true => simp [strWhenTruthy, PyVal.toBool] at h
  | int n =>
    by_cases hn : n = 0
    · subst hn; exact ⟨_, rfl⟩
    · exfalso
      simp [strWhenTruthy, PyVal.toBool, hn] at h

theorem getD_str_lower_ok (s₀ : String) {r : PyDict} {k : String}
    (h : fieldStrOK r k = true) :
    ∃ s, (r.getD k (.str s₀)).lower = .ok s := by
  unfold fieldStrOK at h
  unfold PyDict.getD
  cases hg : r.get? k with
  | none => exact ⟨_, rfl⟩
  | some v =>
    rw [hg] at h
    cases v with
    | str s2 => exact ⟨_, rfl⟩
    | none => simp [isStr] at h
    | bool b => simp [isStr] at h
    | int n => simp [isStr] at h

theorem score_line_type_ok {td : PyDict}
    (h : strWhenTruthy (td.getD "line_type" .none) = true) :
    ∃ out, score_line_type td = .ok out := by
  obtain ⟨s, hs⟩ := lower_pyOr_ok h
  unfold score_line_type line_type_lower
  rw [hs]
  simp only [except_ok_bind]
  cases hf : LINE_TYPE_SCORES.find? (fun p => p.1 == s) with
  | some p =>
    obtain ⟨k, pts, m⟩ := p
    exact ⟨_, rfl⟩
  | none => split_ifs <;> exact ⟨_, rfl⟩

theorem score_carrier_ok {td : PyDict}
    (h : strWhenTruthy (td.getD "carrier" .none) = true) :
    ∃ out, score_carrier td = .ok out := by
  obtain ⟨s, hs⟩ := lower_pyOr_ok h
  unfold score_carrier
  rw [hs]
  simp only [except_ok_bind]
  split_ifs <;> exact ⟨_, rfl⟩

theorem score_porting_ok {td : PyDict}
    (h : strWhenTruthy (td.getD "carrier" .none) = true) :
    ∃ out, score_porting td = .ok out := by
  unfold score_porting
  cases hg : td.get? "carrier" with
  | none =>
    have hc : td.getD "carrier" (.str "") = .str "" := by
      unfold PyDict.getD; rw [hg]; rfl
    rw [hc]
    simp [PyVal.toBool]
  | some v =>
    have hv : td.getD "carrier" .none = v := by
      unfold PyDict.getD; rw [hg]; rfl
    have hc : td.getD "carrier" (.str "") = v := by
      unfold PyDict.getD; rw [hg]; rfl
    rw [hc]
    rw [hv] at h
    by_cases hb : v.toBool = true
    · cases v with
      | str s2 =>
        dsimp only
        split_ifs
        · simp only [PyVal.lower, except_ok_bind]
          split_ifs <;> exact ⟨_, rfl⟩
        · exact ⟨_, rfl⟩
      | none => simp [PyVal.toBool] at hb
      | bool b => cases b with
        | true => simp [strWhenTruthy, PyVal.toBool] at h
        | false => simp [PyVal.toBool] at hb
      | int n =>
        simp only [strWhenTruthy] at h
        rw [Bool.not_eq_true'] at h
        rw [h] at hb
        exact absurd hb (by simp)
    · have hfalse : v.toBool = false := by
        revert hb; cases v.toBool <;> simp
      dsimp only
      rw [hfalse]
      simp

theorem report_type_lower_ok {r : PyDict} (h : fieldStrOK r "type" = true) :
    ∃ s, report_type_lower r = .ok s :=
  getD_str_lower_ok "other" h

theorem report_desc_lower_ok {r : PyDict} (h : fieldStrOK r "description" = true) :
    ∃ s, report_desc_lower r = .ok s :=
  getD_str_lower_ok "" h

theorem reportContentsLoop_ok :
    ∀ rs : List PyDict, (∀ r ∈ rs, ReportWF r = true) →
      ∃ out, reportContentsLoop rs = .ok out := by
  intro rs
  induction rs with
  | nil => exact fun _ => ⟨_, rfl⟩
  | cons r rest ih =>
    intro h
    obtain ⟨hty, hde⟩ := bool_and_elim (h r (List.mem_cons_self r rest))
    obtain ⟨t, ht⟩ := report_type_lower_ok hty
    obtain ⟨d, hd⟩ := report_desc_lower_ok hde
    obtain ⟨out, hout⟩ := ih (fun r2 hr2 => h r2 (List.mem_cons_of_mem r hr2))
    obtain ⟨a, b, c⟩ := out
    cases hkw : reportKeywordStep d with
    | mk kb km =>
      refine ⟨(REPORT_SEVERITY.getD5 t + a, kb + b, km ++ c), ?_⟩
      unfold reportContentsLoop
      rw [ht]
      simp only [except_ok_bind]
      rw [hd]
      simp only [except_ok_bind]
      rw [hkw, hout]
      simp only [except_ok_bind]

theorem score_report_contents_ok {rs : List PyDict}
    (h : ∀ r ∈ rs, ReportWF r = true) :
    ∃ out, score_report_contents rs = .ok out := by
  obtain ⟨out, hout⟩ := reportContentsLoop_ok rs h
  obtain ⟨t, kw, msgs⟩ := out
  refine ⟨(kw + if t > 0 then min t 20 else 0, msgs), ?_⟩
  unfold score_report_contents
  rw [hout]
  simp only [except_ok_bind]

theorem report_types_lower_ok :
    ∀ rs : List PyDict, (∀ r ∈ rs, ReportWF r = true) →
      ∃ ts, report_types_lower rs = .ok ts := by
  intro rs
  induction rs with
  | nil => exact fun _ => ⟨_, rfl⟩
  | cons r rest ih =>
    intro h
    obtain ⟨t, ht⟩ :=
      getD_str_lower_ok ""
        (bool_and_elim (h r (List.mem_cons_self r rest))).1
    obtain ⟨ts, hts⟩ := ih (fun r2 hr2 => h r2 (List.mem_cons_of_mem r hr2))
    refine ⟨t :: ts, ?_⟩
    unfold report_types_lower at hts ⊢
    rw [List.mapM_cons]
    rw [ht]
    simp only [except_ok_bind]
    rw [hts]
    simp only [except_ok_bind, except_pure_eq_ok]

theorem determine_threat_type_ok {td : PyDict} {rs : List PyDict} (score : Int)
    (hl : strWhenTruthy (td.getD "line_type" .none) = true)
    (hr : ∀ r ∈ rs, ReportWF r = true) :
    ∃ tt, determine_threat_type td rs score = .ok tt := by
  obtain ⟨ts, hts⟩ := report_types_lower_ok rs hr
  unfold determine_threat_type
  rw [hts]
  simp only [except_ok_bind]
  cases hf : THREAT_TYPE_MAP.find? (fun p => p.1.any (fun t => ts.contains t)) with
  | some p =>
    obtain ⟨ks, label⟩ := p
    exact ⟨_, rfl⟩
  | none =>
    obtain ⟨lt, hlt⟩ := lower_pyOr_ok hl
    unfold line_type_lower
    rw [hlt]
    simp only [except_ok_bind]
    split_ifs <;> exact ⟨_, rfl⟩

/-- C6 (amended): `analyze_number` never fails when every optional field is
absent or well-typed (`spam_reports` numeric, `line_type`/`carrier` strings
when truthy, report `type`/`description` strings when present); but a present
malformed field does raise: a `None` spam count raises `TypeError` and a
non-string truthy carrier or line type raises `AttributeError`. -/
theorem analyze_number_total_on_well_typed :
    (∀ td rs, TraceWF td = true → (∀ r ∈ rs, ReportWF r = true) →
      ∃ res, analyze_number td rs = .ok res)
    ∧ analyze_number [("spam_reports", PyVal.none)] [] = .error .typeError
    ∧ analyze_number [("carrier", .int 5)] [] = .error .attributeError
    ∧ analyze_number [("line_type", .int 7)] [] = .error .attributeError := by
  refine ⟨?_, by decide, by decide, by decide⟩
  intro td rs htd hrs
  have h3 := bool_and_elim htd
  have h12 := bool_and_elim h3.1
  have hspam := h12.1
  have hline := h12.2
  have hcarrier := h3.2
  obtain ⟨o1, h1⟩ := spamThresholdLoop_ok hspam SPAM_THRESHOLDS
  obtain ⟨a1, b1⟩ := o1
  obtain ⟨o2, h2⟩ := score_report_contents_ok hrs
  obtain ⟨a2, b2⟩ := o2
  obtain ⟨o4, h4⟩ := score_line_type_ok hline
  obtain ⟨a4, b4⟩ := o4
  obtain ⟨o6, h6⟩ := score_carrier_ok hcarrier
  obtain ⟨a6, b6⟩ := o6
  obtain ⟨o7, h7⟩ := score_porting_ok hcarrier
  obtain ⟨a7, b7⟩ := o7
  cases hval : score_validity td with
  | mk p3 f3 =>
  cases hcou : score_country td with
  | mk p5 f5 =>
  have hraw : ∃ raw f, analysis_raw_score_factors td rs = .ok (raw, f) := by
    refine ⟨a1 + a2 + p3 + a4 + p5 + a6 + a7,
            b1 ++ b2 ++ f3 ++ b4 ++ f5 ++ b6 ++ b7, ?_⟩
    unfold analysis_raw_score_factors score_spam_reports
    rw [h1]
    simp only [except_ok_bind]
    rw [h2]
    simp only [except_ok_bind]
    rw [hval]
    dsimp only
    rw [h4]
    simp only [except_ok_bind]
    rw [hcou]
    dsimp only
    rw [h6]
    simp only [except_ok_bind]
    rw [h7]
    simp only [except_ok_bind]
  obtain ⟨raw, f, hraw⟩ := hraw
  obtain ⟨tt, htt⟩ := determine_threat_type_ok (max 0 (min 100 raw)) hline hrs
  refine ⟨{ risk_score := max 0 (min 100 raw)
            risk_level :=
              if max 0 (min 100 raw) ≥ 70 then "Critical"
              else if max 0 (min 100 raw) ≥ 45 then "High"
              else if max 0 (min 100 raw) ≥ 25 then "Medium" else "Low"
            threat_type := tt
            factors := f.take 6 }, ?_⟩
  unfold analyze_number
  rw [hraw]
  simp only [except_ok_bind]
  rw [determine_risk_level_eq (max 0 (min 100 raw)) (le_max_left 0 _)]
  simp only [except_ok_bind]
  rw [htt]
  simp only [except_ok_bind]

/-- Witness for `analyze_number_total_on_well_typed` on a trace with absent
and falsy optional fields plus one well-typed report. -/
theorem analyze_number_total_on_well_typed_witness :
    ∃ res,
      analyze_number [("line_type", PyVal.none), ("spam_reports", .bool true)]
        [[("type", .str "scam")]] = .ok res :=
  analyze_number_total_on_well_typed.1
    [("line_type", PyVal.none), ("spam_reports", .bool true)]
    [[("type", .str "scam")]] (by decide)
    (by intro r hr; fin_cases hr <;> decide)

/-- C6 counterexample: a malformed (string-valued) `spam_reports` field makes
`analyze_number` raise a `TypeError` instead of being defaulted away. -/
theorem analyze_number_raises_on_malformed_field :
    analyze_number [("spam_reports", .str "many")] [] = .error .typeError := by
  decide

/-! ## Knowledge-base matching lemmas -/

/-- The best knowledge-base score for a message: maximum entry score,
starting from 0. -/
def kb_best_score (msg : String) : Int :=
  (KNOWLEDGE_BASE.map (kb_entry_score msg)).foldl max 0

theorem foldl_len_ge : ∀ (l : List String) (a : Int),
    a ≤ l.foldl (fun acc p => acc + (p.length : Int)) a := by
  intro l
  induction l with
  | nil => intro a; exact le_refl a
  | cons p rest ih =>
    intro a
    calc a ≤ a + (p.length : Int) := by omega
      _ ≤ _ := ih (a + (p.length : Int))

theorem kb_entry_score_nonneg (msg : String) (e : KBEntry) :
    0 ≤ kb_entry_score msg e :=
  foldl_len_ge (e.patterns.filter (fun p => pyIn p msg)) 0

theorem foldl_max_init_le : ∀ (l : List Int) (a : Int), a ≤ l.foldl max a := by
  intro l
  induction l with
  | nil => intro a; exact le_refl a
  | cons x rest ih =>
    intro a
    calc a ≤ max a x := le_max_left a x
      _ ≤ _ := ih (max a x)

theorem mem_le_foldl_max : ∀ (l : List Int) (a x : Int), x ∈ l → x ≤ l.foldl max a := by
  intro l
  induction l with
  | nil => intro a x hx; simp at hx
  | cons y rest ih =>
    intro a x hx
    rcases List.mem_cons.mp hx with rfl | h
    · calc x ≤ max a x := le_max_right a x
        _ ≤ _ := foldl_max_init_le rest (max a x)
    · exact ih (max a y) x h

/-- The first projection of the knowledge-base fold is the running maximum of
the entry scores. -/
theorem kbFold_fst (msg : String) : ∀ (l : List KBEntry) (b : Int × String),
    (l.foldl (kbStep msg) b).1 = (l.map (kb_entry_score msg)).foldl max b.1 := by
  intro l
  induction l with
  | nil => intro b; rfl
  | cons e rest ih =>
    intro b
    rw [List.foldl_cons, List.map_cons, List.foldl_cons, ih]
    congr 1
    unfold kbStep
    split_ifs with h
    · exact (max_eq_right (le_of_lt h)).symm
    · exact (max_eq_left (by omega)).symm

/-- When no entry score strictly exceeds the running best, the fold keeps it. -/
theorem kbFold_keeps (msg : String) : ∀ (l : List KBEntry) (b : Int × String),
    (∀ e ∈ l, kb_entry_score msg e ≤ b.1) → l.foldl (kbStep msg) b = b := by
  intro l
  induction l with
  | nil => intro b _; rfl
  | cons e rest ih =>
    intro b h
    rw [List.foldl_cons]
    have hstep : kbStep msg b e = b := by
      unfold kbStep
      exact if_neg (by have := h e (List.mem_cons_self e rest); omega)
    rw [hstep]
    exact ih b (fun e2 he2 => h e2 (List.mem_cons_of_mem e he2))

/-- Argmax-with-first-tie characterization of the knowledge-base fold: either
nothing beats the initial best and it survives unchanged, or the list splits
around the first entry attaining the strict maximum, whose score and response
the fold returns. -/
theorem kbFold_argmax (msg : String) : ∀ (l : List KBEntry) (b : Int × String),
    (l.foldl (kbStep msg) b = b ∧ ∀ e ∈ l, kb_entry_score msg e ≤ b.1) ∨
    (∃ pre el post, l = pre ++ el :: post ∧
      b.1 < kb_entry_score msg el ∧
      (l.foldl (kbStep msg) b).1 = kb_entry_score msg el ∧
      (l.foldl (kbStep msg) b).2 = el.response ∧
      (∀ e2 ∈ pre, kb_entry_score msg e2 < kb_entry_score msg el) ∧
      (∀ e2 ∈ l, kb_entry_score msg e2 ≤ kb_entry_score msg el)) := by
  intro l
  induction l with
  | nil => intro b; left; exact ⟨rfl, by simp⟩
  | cons e rest ih =>
    intro b
    rw [List.foldl_cons]
    by_cases hgt : b.1 < kb_entry_score msg e
    · have hstep : kbStep msg b e = (kb_entry_score msg e, e.response) := by
        unfold kbStep
        exact if_pos hgt
      rw [hstep]
      rcases ih (kb_entry_score msg e, e.response) with ⟨hfold, hall⟩ |
        ⟨pre, el, post, heq, hblt, h1, h2, hpre, hall⟩
      · right
        refine ⟨[], e, rest, rfl, hgt, ?_, ?_, by simp, ?_⟩
        · rw [hfold]
        · rw [hfold]
        · intro e2 he2
          rcases List.mem_cons.mp he2 with rfl | h
          · exact le_refl _
          · exact hall e2 h
      · right
        refine ⟨e :: pre, el, post, by rw [heq]; rfl, lt_trans hgt hblt, h1, h2, ?_, ?_⟩
        · intro e2 he2
          rcases List.mem_cons.mp he2 with rfl | h
          · exact hblt
          · exact hpre e2 h
        · intro e2 he2
          rcases List.mem_cons.mp he2 with rfl | h
          · exact le_of_lt hblt
          · exact hall e2 h
    · have hstep : kbStep msg b e = b := by
        unfold kbStep
        exact if_neg hgt
      rw [hstep]
      rcases ih b with ⟨hfold, hall⟩ | ⟨pre, el, post, heq, hblt, h1, h2, hpre, hall⟩
      · left
        refine ⟨hfold, ?_⟩
        intro e2 he2
        rcases List.mem_cons.mp he2 with rfl | h
        · exact le_of_not_lt hgt
        · exact hall e2 h
      · right
        refine ⟨e :: pre, el, post, by rw [heq]; rfl, hblt, h1, h2, ?_, ?_⟩
        · intro e2 he2
          rcases List.mem_cons.mp he2 with rfl | h
          · exact lt_of_le_of_lt (le_of_not_lt hgt) hblt
          · exact hpre e2 h
        · intro e2 he2
          rcases List.mem_cons.mp he2 with rfl | h
          · exact le_of_lt (lt_of_le_of_lt (le_of_not_lt hgt) hblt)
          · exact hall e2 h

theorem match_kb_fst (msg : String) :
    (KNOWLEDGE_BASE.foldl (kbStep msg) (0, DEFAULT_RESPONSE)).1 = kb_best_score msg :=
  kbFold_fst msg KNOWLEDGE_BASE (0, DEFAULT_RESPONSE)

/-- C8: the knowledge-base matcher returns confidence `min(best_score/10, 1)`
for the maximum entry score; with no entry scoring above 0 it returns the
fixed default response with confidence exactly 0; and with a positive best
score it returns the response of the first entry attaining the strictly
highest score (every earlier entry scores strictly less, every entry scores
at most it). -/
theorem kb_match_best_entry (msg : String) :
    (match_knowledge_base msg).2 = min ((kb_best_score msg : ℚ) / 10) 1
    ∧ (kb_best_score msg = 0 → match_knowledge_base msg = (DEFAULT_RESPONSE, 0))
    ∧ (0 < kb_best_score msg →
        ∃ pre el post, KNOWLEDGE_BASE = pre ++ el :: post ∧
          kb_entry_score msg el = kb_best_score msg ∧
          (match_knowledge_base msg).1 = el.response ∧
          (∀ e2 ∈ pre, kb_entry_score msg e2 < kb_entry_score msg el) ∧
          (∀ e2 ∈ KNOWLEDGE_BASE, kb_entry_score msg e2 ≤ kb_entry_score msg el)) := by
  refine ⟨?_, ?_, ?_⟩
  · unfold match_knowledge_base
    dsimp only
    rw [match_kb_fst msg]
  · intro h0
    have hall : ∀ e ∈ KNOWLEDGE_BASE, kb_entry_score msg e ≤ (0 : Int) := by
      intro e he
      have hle : kb_entry_score msg e ≤ kb_best_score msg :=
        mem_le_foldl_max _ 0 _ (List.mem_map_of_mem (kb_entry_score msg) he)
      omega
    have hfold := kbFold_keeps msg KNOWLEDGE_BASE (0, DEFAULT_RESPONSE) hall
    unfold match_knowledge_base
    dsimp only
    rw [hfold]
    norm_num
  · intro hpos
    rcases kbFold_argmax msg KNOWLEDGE_BASE (0, DEFAULT_RESPONSE) with ⟨hfold, _⟩ |
      ⟨pre, el, post, heq, _, h1, h2, hpre, hall⟩
    · exfalso
      have := match_kb_fst msg
      rw [hfold] at this
      omega
    · have hbest : kb_entry_score msg el = kb_best_score msg := by
        rw [← match_kb_fst msg, h1]
      refine ⟨pre, el, post, heq, hbest, ?_, hpre, hall⟩
      unfold match_knowledge_base
      dsimp only
      exact h2

/-- Witness for `kb_match_best_entry` at the message "hello" (which scores
positively against the greeting entry). -/
theorem kb_match_best_entry_witness :
    ∃ pre el post, KNOWLEDGE_BASE = pre ++ el :: post ∧
      kb_entry_score "hello" el = kb_best_score "hello" ∧
      (match_knowledge_base "hello").1 = el.response ∧
      (∀ e2 ∈ pre, kb_entry_score "hello" e2 < kb_entry_score "hello" el) ∧
      (∀ e2 ∈ KNOWLEDGE_BASE, kb_entry_score "hello" e2 ≤ kb_entry_score "hello" el) :=
  (kb_match_best_entry "hello").2.2 (by decide)

theorem match_kb_response_mem (msg : String) :
    (match_knowledge_base msg).1 = DEFAULT_RESPONSE ∨
    ∃ e ∈ KNOWLEDGE_BASE, (match_knowledge_base msg).1 = e.response := by
  unfold match_knowledge_base
  dsimp only
  rcases kbFold_argmax msg KNOWLEDGE_BASE (0, DEFAULT_RESPONSE) with ⟨hfold, _⟩ |
    ⟨pre, el, post, heq, _, _, h2, _, _⟩
  · left
    rw [hfold]
  · right
    refine ⟨el, ?_, h2⟩
    rw [heq]
    exact List.mem_append.mpr (Or.inr (List.mem_cons_self el post))

theorem match_kb_response_ne_empty (msg : String) :
    (match_knowledge_base msg).1 ≠ "" := by
  have hd : DEFAULT_RESPONSE ≠ "" := by decide
  have hall : ∀ e ∈ KNOWLEDGE_BASE, e.response ≠ "" := by decide
  rcases match_kb_response_mem msg with h | ⟨e, he, h⟩
  · rw [h]; exact hd
  · rw [h]; exact hall e he

/-- C9: the chat entry point accepts the generator output exactly when it is
non-empty and strictly longer than 20 characters, tagging it "llm" with the
model file name; any other generator outcome behaves like an absent generator
and delegates to the knowledge-base matcher tagged "rule-based"; and the
response is non-empty in every case. -/
theorem chat_llm_gate :
    (∀ (s msg : String) (h : Option (List PyDict)), s ≠ "" → 20 < s.length →
      chat (some s) msg h =
        { response := s, confidence := 9 / 10, ai_source := "llm",
          model := some MODEL_FILE })
    ∧ (∀ (s msg : String) (h : Option (List PyDict)), ¬(s ≠ "" ∧ 20 < s.length) →
        chat (some s) msg h = chat Option.none msg h)
    ∧ (∀ (msg : String) (h : Option (List PyDict)),
        chat Option.none msg h =
          { response := (match_knowledge_base (strStrip (strLower msg))).1
            confidence := (match_knowledge_base (strStrip (strLower msg))).2
            ai_source := "rule-based", model := Option.none })
    ∧ (∀ (llm : Option String) (msg : String) (h : Option (List PyDict)),
        (chat llm msg h).response ≠ "") := by
  have hcond : ∀ s : String, ((s != "") && decide (s.length > 20)) = true ↔
      (s ≠ "" ∧ 20 < s.length) := by
    intro s
    simp [bne_iff_ne]
  refine ⟨?_, ?_, ?_, ?_⟩
  · intro s msg h hne hlen
    unfold chat
    dsimp only
    rw [if_pos ((hcond s).mpr ⟨hne, hlen⟩)]
  · intro s msg h hne
    unfold chat
    dsimp only
    rw [if_neg (fun hc => hne ((hcond s).mp hc))]
  · intro msg h
    unfold chat
    dsimp only
  · intro llm msg h
    cases llm with
    | none =>
      unfold chat
      dsimp only
      exact match_kb_response_ne_empty (strStrip (strLower msg))
    | some s =>
      unfold chat
      dsimp only
      by_cases hc : ((s != "") && decide (s.length > 20)) = true
      · rw [if_pos hc]
        exact ((hcond s).mp hc).1
      · rw [if_neg hc]
        exact match_kb_response_ne_empty (strStrip (strLower msg))

/-- Witness for `chat_llm_gate` at a concrete 36-character generator reply. -/
theorem chat_llm_gate_witness :
    chat (some "Block that number and report it now.") "hi" Option.none =
      { response := "Block that number and report it now.", confidence := 9 / 10,
        ai_source := "llm", model := some MODEL_FILE } :=
  chat_llm_gate.1 "Block that number and report it now." "hi" Option.none
    (by decide) (by decide)

/-- C10: `chat` never reads its `history` argument — any two history values
(present or absent) produce the identical deterministic result. -/
theorem chat_ignores_history :
    ∀ (llm : Option String) (msg : String) (h₁ h₂ : Option (List PyDict)),
      chat llm msg h₁ = chat llm msg h₂ :=
  fun _ _ _ _ => rfl

end AIService
